import Mathlib

/-!
Shallow embedding of the two omero-iviewer UI widgets
(`src/controls/dimension-slider.js` and `src/controls/channel-settings.js`)
and proofs about their synchronization logic.

JavaScript numbers are modelled as rationals (`ℚ`); model state mutated by
the widgets (dimension index, projection mode/range, history stack, events
published on the bus) is carried in explicit state records, and each JS
handler becomes a state-transition function.  Per the concurrency section of
the design, a model mutation synchronously fires its property observer, so
the composite functions below inline the observer bodies at the mutation
sites.
-/

namespace OmeroIviewer

/-- JS `Math.round`: round half toward positive infinity. -/
def jsRound (q : ℚ) : ℤ := ⌊q + 1/2⌋

/-- The `PROJECTION` enum from `utils/constants`. -/
inductive Projection where
  | NORMAL
  | INTMAX
deriving DecidableEq, Repr

/-- `image_info.projection_opts`: the start/end of the intmax projection. -/
structure ProjectionOpts where
  start : ℤ
  «end» : ℤ
deriving DecidableEq, Repr

/-- Values stored in a history entry (`old_val` / `new_val`). -/
inductive HVal where
  | num (n : ℤ)
  | proj (p : Projection)
  | obj (o : ProjectionOpts)
  | null
deriving DecidableEq, Repr

/-- One undo/redo record `{prop, old_val, new_val, type}`. -/
structure HistoryEntry where
  prop : List String
  old_val : HVal
  new_val : HVal
  type : String
deriving DecidableEq, Repr

/-- Events published on the application context bus. -/
inductive Event where
  | dimensionChange (config_id : ℕ) (dim : String) (value : ℤ)
  | dimensionPlay (config_id : ℕ) (dim : String) (forwards : Bool) (stop : Bool)
  | settingsChange (config_id : ℕ) (projection : Projection)
deriving DecidableEq, Repr

/-- The model state a `DimensionSlider` instance reads and mutates:
the `image_info` fields of its image config for its dimension, the shared
`player_info`, its own bookkeeping fields, the history stack of the config and
the events it published. -/
structure SliderState where
  config_id : ℕ
  dim : String
  /-- `image_info.dimensions[this.dim]` -/
  dimensions : ℤ
  /-- The dimension extent stored under the max_ key in `image_info.dimensions` -/
  max_dim : ℤ
  projection : Projection
  projection_opts : ProjectionOpts
  player_dim : Option String
  player_forwards : Option Bool
  player_handle : Option ℕ
  last_player_start : Option ℤ
  add_projection_history : Bool
  history : List HistoryEntry
  events : List Event
deriving DecidableEq, Repr

/-- `last_player_start` as it appears in a history entry (`null` before the
first play). -/
def HVal.ofOptInt : Option ℤ → HVal
  | none => .null
  | some n => .num n

/-- `DimensionSlider.playDimension(forwards)`. -/
def playDimension (st : SliderState) (forwards : Bool) : SliderState :=
  if st.dim = "z" ∧ st.projection = .INTMAX then st
  else
    let stop := st.player_dim ≠ none ∧ st.player_dim = some st.dim ∧
      st.player_forwards = some forwards
    let st1 :=
      if stop then
        { st with history := st.history ++
            [⟨["image_info", "dimensions", st.dim],
              HVal.ofOptInt st.last_player_start, .num st.dimensions, "number"⟩] }
      else { st with last_player_start := some st.dimensions }
    { st1 with events := st1.events ++
        [.dimensionPlay st.config_id st.dim forwards stop] }

/-- `DimensionSlider.onChange(value, slider_interaction)`, with the
dimension property observer (which publishes `IMAGE_DIMENSION_CHANGE`)
inlined at the mutation of `dimensions[this.dim]`. -/
def onChange (st : SliderState) (value : ℚ) (slider_interaction : Bool) :
    SliderState :=
  let v := jsRound value
  let oldValue := st.dimensions
  if v = oldValue then st
  else
    let st1 :=
      if slider_interaction then
        { st with history := st.history ++
            [⟨["image_info", "dimensions", st.dim],
              .num oldValue, .num v, "number"⟩] }
      else st
    { st1 with dimensions := v,
               events := st1.events ++
                 [.dimensionChange st.config_id st.dim v] }

/-- `DimensionSlider.changeProjection(values, toggle)`.  `values` is either
the two-element range (array case) or `undefined`. -/
def changeProjection (st : SliderState) (values : Option (ℚ × ℚ))
    (toggle : Bool) : SliderState :=
  let st2 : SliderState :=
    match values with
    | some (v0, v1) =>
      let r0 := jsRound v0
      let r1 := jsRound v1
      let oldOpts := st.projection_opts
      let sta := { st with projection_opts := ⟨r0, r1⟩ }
      if sta.add_projection_history then
        if toggle then
          { sta with
            add_projection_history := false
            history := sta.history ++
              [⟨["image_info", "projection"],
                .proj .NORMAL, .proj .INTMAX, "string"⟩] }
        else
          { sta with
            add_projection_history := false
            history := sta.history ++
              [⟨["image_info", "projection_opts"],
                .obj oldOpts, .obj ⟨r0, r1⟩, "object"⟩] }
      else sta
    | none =>
      if toggle ∧ st.add_projection_history then
        { st with
          add_projection_history := false
          history := st.history ++
            [⟨["image_info", "projection"],
              .proj .INTMAX, .proj .NORMAL, "string"⟩] }
      else st
  { st2 with events := st2.events ++
      [.settingsChange st2.config_id st2.projection] }

/-- `DimensionSlider.initSlider(toggle)`, restricted to its model-visible
effects: nothing for a degenerate dimension, otherwise the trailing
`changeProjection(options.values, toggle)` call, where `options.values` is
the projection range exactly when the slider is dual-handle. -/
def initSlider (st : SliderState) (toggle : Bool) : SliderState :=
  if st.max_dim ≤ 1 then st
  else
    let values : Option (ℚ × ℚ) :=
      if st.dim = "z" ∧ st.projection = .INTMAX then
        some ((st.projection_opts.start : ℚ), (st.projection_opts.«end» : ℚ))
      else none
    changeProjection st values toggle

/-- `DimensionSlider.toggleProjection()` (the method body alone). -/
def toggleProjection (st : SliderState) : SliderState :=
  if st.player_handle ≠ none then st
  else
    let sta := { st with
      projection_opts := ⟨st.dimensions, st.max_dim - 1⟩,
      add_projection_history := true }
    { sta with projection :=
        if sta.projection = .NORMAL then .INTMAX else .NORMAL }

/-- One user toggle as it plays out at runtime: `toggleProjection()` followed
by the `projection` property observer (`detached(); initSlider(true)`), which
fires exactly when the projection field was assigned a different value. -/
def toggleProjectionStep (st : SliderState) : SliderState :=
  let st1 := toggleProjection st
  if st1.projection = st.projection then st1 else initSlider st1 true

/-- A sequence of externally driven frame steps during playback: the play
driver repeatedly calls `onChange` with programmatic (non-interaction)
changes. -/
def stepDims (st : SliderState) (vs : List ℚ) : SliderState :=
  vs.foldl (fun s v => onChange s v false) st

/-- External assignment of the template-bound `player_info` record (done by
the play driver, not by the slider itself). -/
def setPlayerInfo (st : SliderState) (d : Option String) (f : Option Bool)
    (h : Option ℕ) : SliderState :=
  { st with player_dim := d, player_forwards := f, player_handle := h }

/-! ### The jquery slider `slide` handler (`initSlider`, lines 284-308) -/

/-- Which of the two projection handles a drag is moving. -/
inductive Handle where
  | lower
  | upper
deriving DecidableEq, Repr

/-- The outcome of the `slide` callback: `rejected` models `return false`
with no other effect (jquery cancels the move and the handles keep their
values); `keyboardSet v` models the keyboard branch, which sets the control
value to `v` programmatically and then also returns `false`; `accepted`
models falling through to the tooltip code (the move stands). -/
inductive SlideResult where
  | rejected
  | keyboardSet (v : ℚ)
  | accepted (v : ℚ)
deriving DecidableEq, Repr

/-- The new value produced by the keyboard branch: `Math.ceil` for up/right arrows
(key codes 38/39), `Math.floor` for down/left arrows (37/40), the raw
`ui.value` otherwise. -/
def keyboardNewVal (keyCode : ℤ) (v : ℚ) : ℚ :=
  if keyCode = 38 ∨ keyCode = 39 then ((⌈v⌉ : ℤ) : ℚ)
  else if keyCode = 37 ∨ keyCode = 40 then ((⌊v⌋ : ℤ) : ℚ)
  else v

/-- The `slide` handler.  `uiValues` is `ui.values` (`some` exactly in
dual-handle mode, holding the proposed pair with `ui.value` substituted at
the moving handle, as jquery-ui passes it); `uiValue` is `ui.value`;
`keyCode` is `event.keyCode` when it is a number. -/
def slideHandler (player_handle : Option ℕ) (uiValues : Option (ℚ × ℚ))
    (uiValue : ℚ) (keyCode : Option ℤ) : SlideResult :=
  if player_handle ≠ none then .rejected
  else
    let dualReject : Bool :=
      match uiValues with
      | some (v0, v1) =>
        let idx : ℤ := if v0 = uiValue then 0 else if v1 = uiValue then 1 else -1
        decide ((idx = 0 ∧ uiValue ≥ v1) ∨ (idx = 1 ∧ uiValue ≤ v0))
      | none => false
    if dualReject then .rejected
    else
      match keyCode with
      | some kc => .keyboardSet (keyboardNewVal kc uiValue)
      | none => .accepted uiValue

/-- The proposed `ui.values` pair when handle `h` of a dual slider currently
at `(lo, hi)` is dragged to `v`. -/
def proposedValues (lo hi v : ℚ) : Handle → ℚ × ℚ
  | .lower => (v, hi)
  | .upper => (lo, v)

/-- The handle pair after one dual-handle slide interaction: the proposed
pair when the handler lets the drag stand, the old pair otherwise (a
rejected slide is cancelled by jquery, so nothing moves). -/
def slideStep (player_handle : Option ℕ) (lo hi : ℚ) (h : Handle) (v : ℚ)
    (keyCode : Option ℤ) : ℚ × ℚ :=
  match slideHandler player_handle (some (proposedValues lo hi v h)) v keyCode with
  | .accepted _ => proposedValues lo hi v h
  | _ => (lo, hi)

/-! ### ChannelSettings (`src/controls/channel-settings.js`) -/

/-- `CHANNEL_SETTINGS_MODE`. -/
def CHANNEL_SETTINGS_MODE_MIN_MAX : ℚ := 0

/-- `CHANNEL_SETTINGS_MODE.FULL_RANGE`. -/
def CHANNEL_SETTINGS_MODE_FULL_RANGE : ℚ := 1

/-- `CHANNEL_SETTINGS_MODE.IMPORTED`. -/
def CHANNEL_SETTINGS_MODE_IMPORTED : ℚ := 2

/-- The intensity `window` record of a channel. -/
structure ChannelWindow where
  start : ℚ
  «end» : ℚ
  min : ℚ
  max : ℚ
deriving DecidableEq, Repr

/-- One channel record. -/
structure Channel where
  active : Bool
  color : String
  window : ChannelWindow
deriving DecidableEq, Repr

/-- The part of `image_info` the channel-settings panel reads. -/
structure ChannelImageInfo where
  channels : List Channel
deriving DecidableEq, Repr

/-- The `needsFullRangeMode` flag computed in `ChannelSettings.bind()`: a
`map` over the channels that latches the flag when the window of some channel
lies outside its min/max bounds. -/
def needsFullRangeMode (channels : List Channel) : Bool :=
  channels.foldl
    (fun acc c =>
      if c.window.start < c.window.min ∨ c.window.«end» > c.window.max then
        true
      else acc)
    false

/-- The mode `ChannelSettings.bind()` leaves in `this.mode`: unchanged when
`image_info` is null (the early return), otherwise full-range mode if any
channel needs it and min/max mode if not. -/
def bindMode (image_info : Option ChannelImageInfo) (mode : Option ℚ) :
    Option ℚ :=
  match image_info with
  | none => mode
  | some info =>
    if needsFullRangeMode info.channels then
      some CHANNEL_SETTINGS_MODE_FULL_RANGE
    else some CHANNEL_SETTINGS_MODE_MIN_MAX

/-- The state touched by `onModeChange`: the current `mode` (null after the
clearing step) and the queue of `setTimeout` callbacks not yet run. -/
structure CSState where
  mode : Option ℚ
  scheduled : List ℚ
deriving DecidableEq, Repr

/-- A JS argument that is either a number or not (the typeof check in the code). -/
inductive JSInput where
  | num (q : ℚ)
  | nonNum
deriving DecidableEq, Repr

/-- `ChannelSettings.onModeChange(mode)`: early return unless `mode` is a
number in `[0, 2]` strictly equal to the current mode; otherwise clear the
mode and schedule its reassignment with `setTimeout(..., 0)`. -/
def onModeChange (st : CSState) (m : JSInput) : CSState :=
  match m with
  | .nonNum => st
  | .num q =>
    if q < 0 ∨ q > 2 ∨ st.mode ≠ some q then st
    else { st with mode := none, scheduled := st.scheduled ++ [q] }

/-- Running the event loop until the timeout queue is drained: each pending
callback assigns its captured mode, in order. -/
def runTimeouts (st : CSState) : CSState :=
  { st with mode := st.scheduled.foldl (fun _ q => some q) st.mode,
            scheduled := [] }

/-! ### Teardown (`detached` / `unregisterObservers` / `unbind`) -/

/-- The state `detached`/`unregisterObservers`/`unbind` touch: whether the
jquery slider widget was ever constructed, the visibility of the element, the
subscription ids held in `this.observers` and
`this.image_info_ready_observer`, and the log of disposed subscriptions. -/
structure TeardownState where
  sliderConstructed : Bool
  elementVisible : Bool
  observers : List ℕ
  image_info_ready_observer : Option ℕ
  disposed : List ℕ
deriving DecidableEq, Repr

/-- `$(sel).slider("destroy")`: jquery-ui throws when the widget was never
initialized on the element. -/
def sliderDestroy (st : TeardownState) : Except String TeardownState :=
  if st.sliderConstructed then .ok { st with sliderConstructed := false }
  else .error "cannot call methods on slider prior to initialization"

/-- `DimensionSlider.detached()`: try to destroy the slider, swallowing any
exception, then hide the element.  Modelled in `Except` so that "never
throws" is the statement that the result is always `.ok`. -/
def detached (st : TeardownState) : Except String TeardownState :=
  let st1 :=
    match sliderDestroy st with
    | .ok s => s
    | .error _ => st
  .ok { st1 with elementVisible := false }

/-- `DimensionSlider.unregisterObservers()`: dispose every observer in
`this.observers`, reset the list, and dispose the ready observer when it
exists. -/
def unregisterObservers (st : TeardownState) : TeardownState :=
  let st1 := { st with disposed := st.disposed ++ st.observers,
                       observers := [] }
  match st1.image_info_ready_observer with
  | some o =>
    { st1 with disposed := st1.disposed ++ [o],
               image_info_ready_observer := none }
  | none => st1

/-! ### Helper lemmas -/

/-- Rounding an integer-valued JS number returns that integer. -/
theorem jsRound_intCast (n : ℤ) : jsRound (n : ℚ) = n := by
  rw [jsRound, Int.floor_int_add]
  norm_num

/-- The latch `foldl` used by `needsFullRangeMode` is true iff it started
true or some element satisfies the test. -/
theorem foldl_latch_eq_true (p : Channel → Prop) [DecidablePred p]
    (cs : List Channel) (b : Bool) :
    cs.foldl (fun acc c => if p c then true else acc) b = true ↔
      b = true ∨ ∃ c ∈ cs, p c := by
  induction cs generalizing b with
  | nil => simp
  | cons c cs ih =>
    rw [List.foldl_cons, ih]
    by_cases hc : p c
    · simp [hc]
    · simp [hc]

/-- `needsFullRangeMode` holds iff some channel has a window outside its
bounds. -/
theorem needsFullRangeMode_iff (cs : List Channel) :
    needsFullRangeMode cs = true ↔
      ∃ c ∈ cs, c.window.start < c.window.min ∨ c.window.«end» > c.window.max := by
  rw [needsFullRangeMode, foldl_latch_eq_true]
  simp

/-- A concrete time-dimension slider state used to exercise the theorems:
config 0, dimension t at index 2 of extent 5, normal projection, idle
player, empty history. -/
def sampleT : SliderState :=
  ⟨0, "t", 2, 5, .NORMAL, ⟨0, 0⟩, none, none, none, none, false, [], []⟩

/-- A concrete z-dimension slider state in intmax projection. -/
def sampleZint : SliderState :=
  ⟨3, "z", 1, 5, .INTMAX, ⟨0, 4⟩, none, none, none, none, false, [], []⟩

/-! ### C3 / C4: `onChange` -/

/-- C3: when the rounded value differs from the current model value,
`onChange` appends exactly one history entry capturing old and new value iff
the change came from slider interaction, and in either case assigns the
rounded value to the dimension field. -/
theorem onChange_changes (st : SliderState) (value : ℚ) (si : Bool)
    (hne : jsRound value ≠ st.dimensions) :
    (onChange st value true).history = st.history ++
      [⟨["image_info", "dimensions", st.dim],
        .num st.dimensions, .num (jsRound value), "number"⟩] ∧
    (onChange st value false).history = st.history ∧
    (onChange st value si).dimensions = jsRound value := by
  refine ⟨?_, ?_, ?_⟩ <;> simp [onChange, hne]

/-- C3 witness: at value 3.4 with current value 2, interaction appends the
2-to-3 entry, a programmatic change appends nothing, and both assign 3. -/
theorem onChange_changes_witness :
    jsRound (17/5 : ℚ) ≠ (2 : ℤ) ∧
    (onChange sampleT (17/5) true).history =
      [] ++ [⟨["image_info", "dimensions", "t"], .num 2, .num 3, "number"⟩] := by
  have h := onChange_changes sampleT (17/5) true
    (by norm_num [jsRound, sampleT])
  exact ⟨by norm_num [jsRound],
    by simpa [sampleT, show jsRound (17/5 : ℚ) = 3 from by norm_num [jsRound]]
      using h.1⟩

/-- C4: when the rounded value equals the current model value, `onChange`
is the identity on the whole state: no field assignment, no history entry,
no published event. -/
theorem onChange_idempotent (st : SliderState) (value : ℚ) (si : Bool)
    (heq : jsRound value = st.dimensions) :
    onChange st value si = st := by
  simp [onChange, heq]

/-- C4 witness: setting the dimension to its current value 2 (via 2.4,
which rounds to 2) changes nothing, for either interaction flag. -/
theorem onChange_idempotent_witness :
    onChange sampleT (12/5) true = sampleT :=
  onChange_idempotent sampleT (12/5) true (by norm_num [jsRound, sampleT])

/-! ### C10: playback disabled for z in intmax projection -/

/-- C10: with dimension z and intmax projection active, `playDimension`
returns immediately: no event, no history entry, no change to
`last_player_start` (the whole state is untouched). -/
theorem playDimension_intmax_z_noop (st : SliderState) (f : Bool)
    (hdim : st.dim = "z") (hproj : st.projection = .INTMAX) :
    playDimension st f = st := by
  simp [playDimension, hdim, hproj]

/-- C10 witness: a concrete z/intmax state is returned unchanged in both
directions. -/
theorem playDimension_intmax_z_noop_witness :
    playDimension sampleZint true = sampleZint :=
  playDimension_intmax_z_noop sampleZint true (by decide) (by decide)

/-! ### C6: initial channel mode selection -/

/-- C6: with a non-null `image_info`, `bind()` selects full-range mode iff
some channel window lies outside its min/max bounds and min/max mode
otherwise; in particular window [5,250] inside bounds [0,255] gives
min/max mode and window [-10,300] gives full-range mode. -/
theorem bindMode_selection :
    (∀ (info : ChannelImageInfo) (m : Option ℚ),
      (bindMode (some info) m = some CHANNEL_SETTINGS_MODE_FULL_RANGE ↔
        ∃ c ∈ info.channels,
          c.window.start < c.window.min ∨ c.window.«end» > c.window.max) ∧
      (bindMode (some info) m = some CHANNEL_SETTINGS_MODE_MIN_MAX ↔
        ¬ ∃ c ∈ info.channels,
          c.window.start < c.window.min ∨ c.window.«end» > c.window.max)) ∧
    bindMode (some ⟨[⟨true, "808080", ⟨5, 250, 0, 255⟩⟩]⟩) none =
      some CHANNEL_SETTINGS_MODE_MIN_MAX ∧
    bindMode (some ⟨[⟨true, "808080", ⟨-10, 300, 0, 255⟩⟩]⟩) none =
      some CHANNEL_SETTINGS_MODE_FULL_RANGE := by
  refine ⟨fun info m => ?_, by decide, by decide⟩
  have hiff := needsFullRangeMode_iff info.channels
  constructor
  · rw [bindMode, ← hiff]
    rcases h : needsFullRangeMode info.channels <;>
      simp [h, CHANNEL_SETTINGS_MODE_FULL_RANGE, CHANNEL_SETTINGS_MODE_MIN_MAX]
  · rw [bindMode, ← hiff]
    rcases h : needsFullRangeMode info.channels <;>
      simp [h, CHANNEL_SETTINGS_MODE_FULL_RANGE, CHANNEL_SETTINGS_MODE_MIN_MAX]

/-! ### C7: mode reselection reset -/

/-- C7: `onModeChange` leaves the state untouched for a non-number, for a
number outside [0, 2], and for a number different from the active mode; for
the active mode it clears the mode, schedules exactly one reassignment, and
running the scheduled tick restores the same mode. -/
theorem onModeChange_reset (st : CSState) (q : ℚ) :
    onModeChange st .nonNum = st ∧
    ((q < 0 ∨ 2 < q ∨ st.mode ≠ some q) → onModeChange st (.num q) = st) ∧
    (0 ≤ q → q ≤ 2 → st.mode = some q →
      (onModeChange st (.num q)).mode = none ∧
      (onModeChange st (.num q)).scheduled = st.scheduled ++ [q] ∧
      (st.scheduled = [] →
        runTimeouts (onModeChange st (.num q)) =
          { st with mode := some q, scheduled := [] })) := by
  refine ⟨rfl, fun h => ?_, fun h0 h2 hm => ?_⟩
  · rcases h with h | h | h <;> simp [onModeChange, h]
  · have hcond : ¬ (q < 0 ∨ q > 2 ∨ st.mode ≠ some q) := by
      push_neg
      exact ⟨h0, h2, hm⟩
    refine ⟨?_, ?_, fun hs => ?_⟩
    · simp [onModeChange, if_neg hcond]
    · simp [onModeChange, if_neg hcond]
    · simp [onModeChange, if_neg hcond, runTimeouts, hs]

/-- C7 witness: at active mode 1, reselecting 1 clears then restores the
mode with one scheduled tick; selecting 2 or a non-number changes nothing. -/
theorem onModeChange_reset_witness :
    onModeChange ⟨some 1, []⟩ .nonNum = ⟨some 1, []⟩ ∧
    onModeChange ⟨some 1, []⟩ (.num 2) = ⟨some 1, []⟩ ∧
    (onModeChange ⟨some 1, []⟩ (.num 1)).mode = none ∧
    (onModeChange ⟨some 1, []⟩ (.num 1)).scheduled = [] ++ [1] ∧
    runTimeouts (onModeChange ⟨some 1, []⟩ (.num 1)) = ⟨some 1, []⟩ := by
  have h := onModeChange_reset ⟨some 1, []⟩ 1
  have h2 := onModeChange_reset (⟨some 1, []⟩ : CSState) 2
  have hr := h.2.2 (by norm_num) (by norm_num) rfl
  exact ⟨h.1, h2.2.1 (by norm_num), hr.1, hr.2.1, hr.2.2 rfl⟩

/-! ### C9: teardown never throws and releases every subscription -/

/-- C9: `detached()` always succeeds, even though destroying a
never-constructed slider throws (the exception is swallowed); and
`unregisterObservers()` disposes every registered subscription, empties the
observers list, and is the identity when nothing was ever registered. -/
theorem teardown_safe (st : TeardownState) :
    (∃ st1, detached st = .ok st1) ∧
    (st.sliderConstructed = false → ∃ e, sliderDestroy st = .error e) ∧
    (unregisterObservers st).observers = [] ∧
    (unregisterObservers st).image_info_ready_observer = none ∧
    (∀ o ∈ st.observers, o ∈ (unregisterObservers st).disposed) ∧
    (st.observers = [] → st.image_info_ready_observer = none →
      unregisterObservers st = st) := by
  obtain ⟨sc, ev, obs, ready, disp⟩ := st
  refine ⟨⟨_, rfl⟩, fun h => ?_, ?_, ?_, fun o ho => ?_, fun h1 h2 => ?_⟩
  · subst h
    exact ⟨_, rfl⟩
  · cases ready <;> rfl
  · cases ready <;> rfl
  · cases ready <;> simp [unregisterObservers, ho]
  · subst h1
    subst h2
    simp [unregisterObservers]

/-- C9 witness: with the slider never constructed, two observers and a
ready observer, `detached` succeeds, `sliderDestroy` alone throws, and
`unregisterObservers` disposes all three subscriptions; on the empty state
it is the identity. -/
theorem teardown_safe_witness :
    (∃ st1, detached ⟨false, true, [1, 2], some 3, []⟩ = .ok st1) ∧
    (∃ e, sliderDestroy ⟨false, true, [1, 2], some 3, []⟩ = .error e) ∧
    (unregisterObservers ⟨false, true, [1, 2], some 3, []⟩).observers = [] ∧
    (unregisterObservers ⟨false, true, [1, 2], some 3, []⟩).disposed =
      [1, 2, 3] ∧
    unregisterObservers ⟨false, true, [], none, []⟩ =
      ⟨false, true, [], none, []⟩ := by
  have h := teardown_safe ⟨false, true, [1, 2], some 3, []⟩
  have h0 := teardown_safe (⟨false, true, [], none, []⟩ : TeardownState)
  exact ⟨h.1, h.2.1 rfl, h.2.2.1, by decide, h0.2.2.2.2.2 rfl rfl⟩

/-! ### C8: keyboard single-step rounding -/

/-- C8 counterexample: an up-arrow (key code 38) slide at position 3.01
sets the control to 4 (the ceiling), while the nearest integer to 3.01 is
3 — so the keyboard branch does not round to the nearest whole step. -/
theorem keyboard_up_not_nearest :
    slideHandler none none (301/100) (some 38) = .keyboardSet 4 ∧
    jsRound (301/100) = 3 ∧ (4 : ℚ) ≠ ((3 : ℤ) : ℚ) := by
  refine ⟨?_, by norm_num [jsRound], by norm_num⟩
  have hc : ⌈(301/100 : ℚ)⌉ = 4 := by
    rw [Int.ceil_eq_iff]
    norm_num
  simp [slideHandler, keyboardNewVal, hc]

/-- C8 amended: an arrow-key slide sets the control to a whole-step value
in the direction of travel — the ceiling of the proposed value for up/right
arrows (key codes 38/39) and the floor for down/left arrows (37/40) — a
whole integer, not a multiple of the 0.01 resolution, but not the nearest
integer in general. -/
theorem keyboard_slide_whole_step (v : ℚ) (kc : ℤ) :
    ((kc = 38 ∨ kc = 39) →
      slideHandler none none v (some kc) = .keyboardSet ((⌈v⌉ : ℤ) : ℚ)) ∧
    ((kc = 37 ∨ kc = 40) →
      slideHandler none none v (some kc) = .keyboardSet ((⌊v⌋ : ℤ) : ℚ)) := by
  constructor
  · rintro (rfl | rfl) <;> simp [slideHandler, keyboardNewVal]
  · rintro (rfl | rfl) <;> simp [slideHandler, keyboardNewVal]

/-- C8 witness: a right-arrow at 3.01 lands on 4 and a left-arrow at 3.01
lands on 3, both whole steps. -/
theorem keyboard_slide_whole_step_witness :
    slideHandler none none (301/100) (some 39) = .keyboardSet 4 ∧
    slideHandler none none (301/100) (some 40) = .keyboardSet 3 := by
  have hup := (keyboard_slide_whole_step (301/100) 39).1 (Or.inr rfl)
  have hdn := (keyboard_slide_whole_step (301/100) 40).2 (Or.inr rfl)
  have hc : ⌈(301/100 : ℚ)⌉ = 4 := by
    rw [Int.ceil_eq_iff]
    norm_num
  rw [hup, hdn, hc]
  constructor <;> norm_num

/-! ### C2: dual-handle ordering -/

/-- The boolean rejection test the slide handler performs on a proposed
dual-handle pair (the two-handle guard of the `slide` callback). -/
def dualRejectB (v0 v1 v : ℚ) : Bool :=
  decide (((if v0 = v then (0 : ℤ) else if v1 = v then 1 else -1) = 0 ∧ v ≥ v1) ∨
    ((if v0 = v then (0 : ℤ) else if v1 = v then 1 else -1) = 1 ∧ v ≤ v0))

/-- `dualRejectB` decides exactly the rejection disjunction from the code. -/
theorem dualRejectB_eq_true_iff (v0 v1 v : ℚ) :
    dualRejectB v0 v1 v = true ↔
      (((if v0 = v then (0 : ℤ) else if v1 = v then 1 else -1) = 0 ∧ v ≥ v1) ∨
       ((if v0 = v then (0 : ℤ) else if v1 = v then 1 else -1) = 1 ∧ v ≤ v0)) := by
  rw [dualRejectB, decide_eq_true_eq]

/-- Unfolding of the handler in dual-handle mode. -/
theorem slideHandler_some (ph : Option ℕ) (v0 v1 v : ℚ) (kc : Option ℤ) :
    slideHandler ph (some (v0, v1)) v kc =
      if ph ≠ none then .rejected
      else if dualRejectB v0 v1 v then .rejected
      else match kc with
        | some c => .keyboardSet (keyboardNewVal c v)
        | none => .accepted v := by
  cases ph with
  | none => rfl
  | some p => rfl

/-- C2: in dual-handle mode with ordered handles, dragging the lower handle
past the upper (or the upper past the lower) is rejected and the pair is
left unchanged, and every slide interaction preserves the ordering of the
pair. -/
theorem dual_slide_reject_preserves (ph : Option ℕ) (lo hi v : ℚ)
    (h : Handle) (kc : Option ℤ) (hle : lo ≤ hi) :
    (((h = Handle.lower ∧ hi < v) ∨ (h = Handle.upper ∧ v < lo)) →
      slideHandler ph (some (proposedValues lo hi v h)) v kc = .rejected ∧
      slideStep ph lo hi h v kc = (lo, hi)) ∧
    (slideStep ph lo hi h v kc).1 ≤ (slideStep ph lo hi h v kc).2 := by
  have hrej : ∀ _ : ((h = Handle.lower ∧ hi < v) ∨
      (h = Handle.upper ∧ v < lo)),
      slideHandler ph (some (proposedValues lo hi v h)) v kc = .rejected := by
    rintro (⟨rfl, hlt⟩ | ⟨rfl, hlt⟩)
    · rw [proposedValues, slideHandler_some]
      have hb : dualRejectB v hi v = true := by
        rw [dualRejectB_eq_true_iff]
        exact Or.inl ⟨by simp, le_of_lt hlt⟩
      cases ph <;> simp [hb]
    · rw [proposedValues, slideHandler_some]
      have hb : dualRejectB lo v v = true := by
        rw [dualRejectB_eq_true_iff]
        by_cases hlv : lo = v
        · exact Or.inl ⟨by simp [hlv], le_refl v⟩
        · exact Or.inr ⟨by simp [hlv], le_of_lt hlt⟩
      cases ph <;> simp [hb]
  constructor
  · intro hpast
    refine ⟨hrej hpast, ?_⟩
    rw [slideStep, hrej hpast]
  · rcases hr : slideHandler ph (some (proposedValues lo hi v h)) v kc with
      _ | w | w
    · rw [slideStep, hr]
      exact hle
    · rw [slideStep, hr]
      exact hle
    · rw [slideStep, hr]
      rw [slideHandler_some] at hr
      rcases ph with _ | p
      · simp only [ne_eq, not_true_eq_false, if_false] at hr
        rcases hb : dualRejectB (proposedValues lo hi v h).1
            (proposedValues lo hi v h).2 v with _ | _
        · rw [hb] at hr
          have hnp := hb
          rw [dualRejectB] at hnp
          rw [decide_eq_false_iff_not] at hnp
          cases h with
          | lower =>
            refine le_of_lt ?_
            by_contra hge
            exact hnp (Or.inl ⟨by simp [proposedValues], not_lt.mp hge⟩)
          | upper =>
            refine le_of_lt ?_
            by_contra hge
            by_cases hlv : lo = v
            · exact hnp (Or.inl ⟨by simp [proposedValues, hlv], le_refl v⟩)
            · exact hnp (Or.inr ⟨by simp [proposedValues, hlv],
                not_lt.mp hge⟩)
        · rw [hb] at hr
          simp at hr
      · simp at hr

/-- C2 witness: at handles (1, 3), dragging the lower handle to 3.5 is
rejected and nothing moves, and an accepted drag of the lower handle to 2
keeps the pair ordered. -/
theorem dual_slide_reject_preserves_witness :
    slideHandler none (some (proposedValues 1 3 (7/2) .lower)) (7/2) none =
      .rejected ∧
    slideStep none 1 3 .lower (7/2) none = (1, 3) ∧
    (slideStep none 1 3 .lower 2 none).1 ≤ (slideStep none 1 3 .lower 2 none).2 := by
  have h1 := dual_slide_reject_preserves none 1 3 (7/2) .lower none
    (by norm_num)
  have h2 := dual_slide_reject_preserves none 1 3 2 .lower none (by norm_num)
  have hp := h1.1 (Or.inl ⟨rfl, by norm_num⟩)
  exact ⟨hp.1, hp.2, h2.2⟩

/-! ### C5: play/stop produces one coalesced history entry -/

/-- A programmatic `onChange` (no slider interaction) never touches the
history, the play bookkeeping, or the identity fields of the state. -/
theorem onChange_false_fields (st : SliderState) (v : ℚ) :
    (onChange st v false).history = st.history ∧
    (onChange st v false).last_player_start = st.last_player_start ∧
    (onChange st v false).dim = st.dim ∧
    (onChange st v false).projection = st.projection ∧
    (onChange st v false).config_id = st.config_id := by
  by_cases hc : jsRound v = st.dimensions <;> simp [onChange, hc]

/-- `stepDims` unfolds one step at a time. -/
theorem stepDims_cons (st : SliderState) (v : ℚ) (vs : List ℚ) :
    stepDims st (v :: vs) = stepDims (onChange st v false) vs := rfl

/-- A whole driven stepping phase preserves history, the recorded play
start, and the identity fields. -/
theorem stepDims_fields (vs : List ℚ) (st : SliderState) :
    (stepDims st vs).history = st.history ∧
    (stepDims st vs).last_player_start = st.last_player_start ∧
    (stepDims st vs).dim = st.dim ∧
    (stepDims st vs).projection = st.projection ∧
    (stepDims st vs).config_id = st.config_id := by
  induction vs generalizing st with
  | nil => exact ⟨rfl, rfl, rfl, rfl, rfl⟩
  | cons v vs ih =>
    rw [stepDims_cons]
    have h1 := onChange_false_fields st v
    have h2 := ih (onChange st v false)
    exact ⟨h2.1.trans h1.1, h2.2.1.trans h1.2.1, h2.2.2.1.trans h1.2.2.1,
      h2.2.2.2.1.trans h1.2.2.2.1, h2.2.2.2.2.trans h1.2.2.2.2⟩

/-- `playDimension` never itself assigns the dimension field. -/
theorem playDimension_dimensions (st : SliderState) (f : Bool) :
    (playDimension st f).dimensions = st.dimensions := by
  rw [playDimension]
  split
  · rfl
  · dsimp only
    split <;> rfl

/-- The starting call of a play loop: no history entry, the current value
recorded as the play start, and a start event published. -/
theorem playDimension_start (st : SliderState) (f : Bool)
    (hguard : ¬(st.dim = "z" ∧ st.projection = .INTMAX))
    (hnostop : ¬(st.player_dim ≠ none ∧ st.player_dim = some st.dim ∧
      st.player_forwards = some f)) :
    playDimension st f = { st with
      last_player_start := some st.dimensions
      events := st.events ++ [.dimensionPlay st.config_id st.dim f false] } := by
  rw [playDimension, if_neg hguard]
  dsimp only
  rw [if_neg hnostop, decide_eq_false hnostop]

/-- The stopping call of a play loop: one history entry from the recorded
start value to the current value, and a stop event published. -/
theorem playDimension_stop (st : SliderState) (f : Bool)
    (hguard : ¬(st.dim = "z" ∧ st.projection = .INTMAX))
    (hstop : st.player_dim ≠ none ∧ st.player_dim = some st.dim ∧
      st.player_forwards = some f) :
    playDimension st f = { st with
      history := st.history ++ [⟨["image_info", "dimensions", st.dim],
        HVal.ofOptInt st.last_player_start, .num st.dimensions, "number"⟩]
      events := st.events ++ [.dimensionPlay st.config_id st.dim f true] } := by
  rw [playDimension, if_neg hguard]
  dsimp only
  rw [if_pos hstop, decide_eq_true hstop]

/-- C5: a full play/stop cycle — start, any number of driver-issued frame
steps, external player-info assignment, stop — appends exactly one history
entry, from the value recorded at start to the current value; the stop call
publishes a stop event with config id, dimension and direction and does not
itself mutate the dimension field (no `playDimension` call ever does). -/
theorem playDimension_stop_single_entry (st : SliderState) (f : Bool)
    (vs : List ℚ) (hd : Option ℕ)
    (hguard : ¬(st.dim = "z" ∧ st.projection = .INTMAX))
    (hnostop : ¬(st.player_dim ≠ none ∧ st.player_dim = some st.dim ∧
      st.player_forwards = some f)) :
    (playDimension (setPlayerInfo (stepDims (playDimension st f) vs)
        (some st.dim) (some f) hd) f).history =
      st.history ++ [⟨["image_info", "dimensions", st.dim],
        .num st.dimensions,
        .num (stepDims (playDimension st f) vs).dimensions, "number"⟩] ∧
    (playDimension (setPlayerInfo (stepDims (playDimension st f) vs)
        (some st.dim) (some f) hd) f).dimensions =
      (stepDims (playDimension st f) vs).dimensions ∧
    (playDimension (setPlayerInfo (stepDims (playDimension st f) vs)
        (some st.dim) (some f) hd) f).events =
      (stepDims (playDimension st f) vs).events ++
        [.dimensionPlay st.config_id st.dim f true] ∧
    (∀ (s : SliderState) (g : Bool), (playDimension s g).dimensions = s.dimensions) := by
  have hpd := playDimension_start st f hguard hnostop
  have hmid := stepDims_fields vs (playDimension st f)
  have hdim1 : (stepDims (playDimension st f) vs).dim = st.dim := by
    rw [hmid.2.2.1, hpd]
  have hproj1 : (stepDims (playDimension st f) vs).projection = st.projection := by
    rw [hmid.2.2.2.1, hpd]
  have hcid1 : (stepDims (playDimension st f) vs).config_id = st.config_id := by
    rw [hmid.2.2.2.2, hpd]
  have hhist1 : (stepDims (playDimension st f) vs).history = st.history := by
    rw [hmid.1, hpd]
  have hlps1 : (stepDims (playDimension st f) vs).last_player_start =
      some st.dimensions := by
    rw [hmid.2.1, hpd]
  have hstop' := playDimension_stop
    (setPlayerInfo (stepDims (playDimension st f) vs) (some st.dim) (some f) hd) f
    (by
      simp only [setPlayerInfo, hdim1, hproj1]
      exact hguard)
    (by
      refine ⟨by simp [setPlayerInfo], ?_, by simp [setPlayerInfo]⟩
      simp only [setPlayerInfo, hdim1])
  refine ⟨?_, ?_, ?_, fun s g => playDimension_dimensions s g⟩
  · rw [hstop']
    simp only [setPlayerInfo, hdim1, hhist1, hlps1, HVal.ofOptInt]
  · rw [hstop']
    simp [setPlayerInfo]
  · rw [hstop']
    simp only [setPlayerInfo, hdim1, hcid1]

/-- C5 witness: dimension t starting at 2, stepped through 3 and 4 by the
driver, stopped: one history entry from 2 to 4. -/
theorem playDimension_stop_single_entry_witness :
    (stepDims (playDimension sampleT true) [3, 4]).dimensions = 4 ∧
    (playDimension (setPlayerInfo (stepDims (playDimension sampleT true) [3, 4])
        (some sampleT.dim) (some true) (some 9)) true).history =
      [⟨["image_info", "dimensions", "t"], .num 2, .num 4, "number"⟩] := by
  have h := playDimension_stop_single_entry sampleT true [3, 4] (some 9)
    (by decide) (by decide)
  have h3 : jsRound (3 : ℚ) = 3 := by norm_num [jsRound]
  have h4 : jsRound (4 : ℚ) = 4 := by norm_num [jsRound]
  have hmid : (stepDims (playDimension sampleT true) [3, 4]).dimensions = 4 := by
    simp [stepDims, playDimension, onChange, sampleT, h3, h4]
  refine ⟨hmid, ?_⟩
  rw [h.1, hmid]
  rfl

/-! ### C1: toggling projection twice -/

/-- A concrete z-dimension slider state in normal projection with
projection range (0, 0), index 0, extent 5. -/
def sampleZnorm : SliderState :=
  ⟨7, "z", 0, 5, .NORMAL, ⟨0, 0⟩, none, none, none, none, false, [], []⟩

/-- C1 counterexample: starting from normal projection with
projection_opts (0, 0), toggling twice (observer firing after each toggle)
leaves projection_opts at (0, 4) — the seeded current-value/maximum pair —
not at their original values. -/
theorem toggleProjection_twice_opts_not_restored :
    (toggleProjectionStep (toggleProjectionStep sampleZnorm)).projection_opts ≠
      sampleZnorm.projection_opts := by
  have h0 : jsRound ((0 : ℤ) : ℚ) = 0 := jsRound_intCast 0
  have h4 : jsRound ((4 : ℤ) : ℚ) = 4 := jsRound_intCast 4
  have hval : (toggleProjectionStep (toggleProjectionStep sampleZnorm)).projection_opts =
      ⟨0, 4⟩ := by
    simp [toggleProjectionStep, toggleProjection, initSlider, changeProjection,
      sampleZnorm, h0, h4, jsRound_intCast]
  rw [hval]
  simp [sampleZnorm]

/-- C1 amended: from a normal-projection state on a non-degenerate
z dimension with playback idle, toggling projection twice (the projection
observer firing after each toggle) restores the projection mode, leaves the
dimension value unchanged, appends exactly two history entries (one
mode-change entry per toggle), and leaves projection_opts at the seeded
pair (current dimension value, extent − 1) — which equals the original
projection_opts only if they already held those values. -/
theorem toggleProjection_twice (st : SliderState)
    (hdim : st.dim = "z") (hph : st.player_handle = none)
    (hproj : st.projection = .NORMAL) (hmax : 1 < st.max_dim) :
    (toggleProjectionStep (toggleProjectionStep st)).projection = .NORMAL ∧
    (toggleProjectionStep (toggleProjectionStep st)).projection_opts =
      ⟨st.dimensions, st.max_dim - 1⟩ ∧
    (toggleProjectionStep (toggleProjectionStep st)).dimensions =
      st.dimensions ∧
    (toggleProjectionStep (toggleProjectionStep st)).history = st.history ++
      [⟨["image_info", "projection"], .proj .NORMAL, .proj .INTMAX, "string"⟩,
       ⟨["image_info", "projection"], .proj .INTMAX, .proj .NORMAL, "string"⟩] := by
  obtain ⟨cid, dim, dims, maxd, proj, opts, pdim, pfwd, phandle, lps, aph,
    hist, evs⟩ := st
  simp only at hdim hph hproj hmax
  subst hdim
  subst hph
  subst hproj
  have hm : ¬ (maxd ≤ 1) := not_le.mpr hmax
  simp [toggleProjectionStep, toggleProjection, initSlider, changeProjection,
    jsRound_intCast, hm]

/-- C1 witness: the amended behaviour at the concrete state
`sampleZnorm`: mode restored, opts seeded to (0, 4), two entries. -/
theorem toggleProjection_twice_witness :
    (toggleProjectionStep (toggleProjectionStep sampleZnorm)).projection =
      .NORMAL ∧
    (toggleProjectionStep (toggleProjectionStep sampleZnorm)).projection_opts =
      ⟨0, 4⟩ ∧
    (toggleProjectionStep (toggleProjectionStep sampleZnorm)).history =
      [⟨["image_info", "projection"], .proj .NORMAL, .proj .INTMAX, "string"⟩,
       ⟨["image_info", "projection"], .proj .INTMAX, .proj .NORMAL, "string"⟩] := by
  have h := toggleProjection_twice sampleZnorm rfl rfl rfl (by decide)
  refine ⟨h.1, ?_, ?_⟩
  · rw [h.2.1]
    decide
  · rw [h.2.2.2]
    rfl

end OmeroIviewer
